import Mathlib

/-!
Verification of the ChatRagi ingestion pipeline, memory scoring engine and
frontend behaviours against the repository's specification.

The frontend definitions are shallow embeddings of
`src/chatragi/static/js/scripts.js`.  The backend Python modules
(`chat_memory.py`, `file_watcher.py`, `document_loader.py`, `db_utils.py`)
are not present in the sources; definitions for them are modelled from the
spec, as marked in their doc comments.
-/

namespace ChatRagi

/-! ## Frontend model (from `static/js/scripts.js`) -/

/-- Whitespace trimming as JavaScript `String.prototype.trim` (and Python
`str.strip`) do it: drop leading and trailing whitespace.  Defined by
structural recursion over the character list so that it evaluates by
kernel reduction. -/
def jsTrim (s : String) : String :=
  String.mk
    (((s.toList.dropWhile Char.isWhitespace).reverse.dropWhile
        Char.isWhitespace).reverse)

/-- State of the chat user interface: the `chat-box` innerHTML and the
`user-input` textarea value (`scripts.js`, DOM references). -/
structure ChatUI where
  chatBox : String
  userInput : String
deriving DecidableEq, Repr

/-- A request POSTed to the `/ask` endpoint (`scripts.js`, `sendMessage`). -/
structure AskRequest where
  query : String
deriving DecidableEq, Repr

/-- The possible resolutions of the `/ask` fetch inside `sendMessage`:
a JSON body with an `error` field, a JSON body with an `answer` field, or a
network failure caught by the `catch` block. -/
inductive AskResponse where
  | errorField (msg : String)
  | answerField (text : String)
  | networkFailure
deriving DecidableEq, Repr

/-- The user-message div appended to the chat box by `sendMessage`
(`scripts.js` line 34). -/
def userMessageDiv (q : String) : String :=
  "<div class=\"user-message\"><strong>You:</strong> " ++ q ++ "</div>"

/-- The error div appended by `sendMessage` when the response carries an
`error` field (`scripts.js` line 47). -/
def errorDiv (msg : String) : String :=
  "<div class=\"ai-message\"><strong>Error:</strong> " ++ msg ++ "</div>"

/-- The answer div appended by `sendMessage` on success (`scripts.js`
line 50); `marked.parse` is an external library call, embedded as the
identity on the answer text. -/
def aiMessageDiv (answer : String) : String :=
  "<div class=\"ai-message\"><strong>ChatRagi:</strong><div>" ++ answer ++
    "</div></div><hr>"

/-- The div appended by the `catch` block of `sendMessage` (`scripts.js`
line 54). -/
def unreachableDiv : String :=
  "<div class=\"ai-message\"><strong>Error:</strong> Server unreachable.</div>"

/-- Embedding of `sendMessage` (`scripts.js` lines 31-56).  The query is the
trimmed input value; an empty trimmed query returns immediately.  Otherwise
the user message is appended, the input is cleared, and one `/ask` request
is issued; the `resp` parameter supplies the resolution of that fetch.
Returns the final user-interface state and the list of issued requests. -/
def sendMessage (ui : ChatUI) (resp : AskResponse) : ChatUI × List AskRequest :=
  let query := jsTrim ui.userInput
  if query = "" then (ui, [])
  else
    let ui1 : ChatUI := ⟨ui.chatBox ++ userMessageDiv query, ""⟩
    match resp with
    | .errorField m => (⟨ui1.chatBox ++ errorDiv m, ui1.userInput⟩, [⟨query⟩])
    | .answerField a => (⟨ui1.chatBox ++ aiMessageDiv a, ui1.userInput⟩, [⟨query⟩])
    | .networkFailure => (⟨ui1.chatBox ++ unreachableDiv, ui1.userInput⟩, [⟨query⟩])

/-- A request POSTed to the `/store-memory` endpoint (`scripts.js`,
`storeMemory`). -/
structure StoreMemoryRequest where
  user_query : String
  response : String
  is_important : Bool
deriving DecidableEq, Repr

/-- Replace the first occurrence of `pat` in `s` by `repl`, as JavaScript
`String.prototype.replace` with a string pattern does (`pat` non-empty). -/
def replaceFirst (s pat repl : String) : String :=
  match s.splitOn pat with
  | [] => s
  | [x] => x
  | x :: rest => x ++ repl ++ String.intercalate pat rest

/-- Embedding of `storeMemory` (`scripts.js` lines 59-77).  `lastUser` and
`lastAI` are the results of the two `querySelector` calls (`none` when no
matching element exists), carrying the element's `innerText`.  If either is
missing the function returns at once; otherwise one `/store-memory` request
is issued with the labels stripped and the texts trimmed.  The function
never writes to the user interface, so the state is returned unchanged. -/
def storeMemory (ui : ChatUI) (lastUser lastAI : Option String)
    (markImportant : Bool) : ChatUI × List StoreMemoryRequest :=
  match lastUser, lastAI with
  | some u, some a =>
      (ui, [⟨jsTrim (replaceFirst u "You:" ""), jsTrim (replaceFirst a "ChatRagi:" ""),
        markImportant⟩])
  | _, _ => (ui, [])

/-! ## Interaction records and the memory scorer

Modelled from the spec: `chat_memory.py` is not among the sources.  The
spec (§4.6, §3) gives: score = importanceWeight(record) × decay(now −
record.timestamp), with `decay` any monotonically decreasing function of
elapsed time and `importanceWeight` a higher constant for important
records.  We fix the concrete choices decay(t) = 1 / (1 + t) and weights
2 / 1, which satisfy the spec's constraints. -/

/-- An interaction record (spec §3): user query, response text, creation
timestamp and importance flag.  Timestamps are abstract ticks. -/
structure InteractionRecord where
  query : String
  response : String
  timestamp : Nat
  important : Bool
deriving DecidableEq, Repr

/-- Modelled from the spec: the importance weight of `chat_memory.py` is
not in the sources; per spec §4.6 it is a higher constant for records
flagged important than for ordinary ones. -/
def importanceWeight (r : InteractionRecord) : ℚ :=
  if r.important then 2 else 1

/-- Modelled from the spec: the decay function of `chat_memory.py` is not
in the sources; per spec §4.6 it is any monotonically decreasing function
of elapsed time, here 1 / (1 + t). -/
def decay (elapsed : Nat) : ℚ :=
  1 / (1 + (elapsed : ℚ))

/-- Score of a record at evaluation time `now` (spec §4.6):
importanceWeight(record) × decay(now − record.timestamp). -/
def score (now : Nat) (r : InteractionRecord) : ℚ :=
  importanceWeight r * decay (now - r.timestamp)

/-- The decay function is positive. -/
theorem decay_pos (t : Nat) : 0 < decay t := by
  unfold decay
  positivity

/-- The decay function is monotonically decreasing in elapsed time. -/
theorem decay_antitone {t1 t2 : Nat} (h : t1 ≤ t2) : decay t2 ≤ decay t1 := by
  unfold decay
  have h1 : (0 : ℚ) < 1 + (t1 : ℚ) := by positivity
  have h2 : (1 : ℚ) + (t1 : ℚ) ≤ 1 + (t2 : ℚ) := by
    have := (Nat.cast_le (α := ℚ)).mpr h
    linarith
  exact one_div_le_one_div_of_le h1 h2

/-- The importance weight is positive. -/
theorem importanceWeight_pos (r : InteractionRecord) : 0 < importanceWeight r := by
  unfold importanceWeight
  split <;> norm_num

/-- The ranking order of the memory scorer (spec §4.6): higher score first,
ties broken by most-recent timestamp first. -/
def rankOrder (now : Nat) (a b : InteractionRecord) : Prop :=
  score now b < score now a ∨
    (score now a = score now b ∧ b.timestamp ≤ a.timestamp)

instance (now : Nat) : DecidableRel (rankOrder now) := fun a b => by
  unfold rankOrder
  infer_instance

instance (now : Nat) : IsTotal InteractionRecord (rankOrder now) := by
  constructor
  intro a b
  unfold rankOrder
  rcases lt_trichotomy (score now a) (score now b) with h | h | h
  · exact Or.inr (Or.inl h)
  · rcases Nat.le_total b.timestamp a.timestamp with ht | ht
    · exact Or.inl (Or.inr ⟨h, ht⟩)
    · exact Or.inr (Or.inr ⟨h.symm, ht⟩)
  · exact Or.inl (Or.inl h)

instance (now : Nat) : IsTrans InteractionRecord (rankOrder now) := by
  constructor
  intro a b c hab hbc
  unfold rankOrder at *
  rcases hab with h1 | ⟨h1, t1⟩
  · rcases hbc with h2 | ⟨h2, _⟩
    · exact Or.inl (h2.trans h1)
    · exact Or.inl (h2 ▸ h1)
  · rcases hbc with h2 | ⟨h2, t2⟩
    · exact Or.inl (h1 ▸ h2)
    · exact Or.inr ⟨h1.trans h2, t2.trans t1⟩

/-- The fixed K of the memory scorer's contract (spec §4.6): the top three
relevant memories are returned. -/
def topK : Nat := 3

/-- Modelled from the spec: the `rank` operation of `chat_memory.py` is not
in the sources.  Per spec §4.6 the candidate records have already been
filtered against `query` by an external similarity collaborator; this
component only re-ranks them by score (ties by most-recent timestamp) and
returns the top `topK`. -/
def rank (query : String) (allRecords : List InteractionRecord) (now : Nat) :
    List InteractionRecord :=
  (List.insertionSort (rankOrder now) allRecords).take topK

/-! ## The interaction store

Modelled from the spec: the storage routine of `chat_memory.py` is not in
the sources.  Per spec §4.6/§3, storing a new exchange inserts a record
with the current timestamp unless an identical (query, response) pair
already exists, in which case the existing record's importance flag is
OR-ed with the requested flag and nothing is inserted. -/

/-- Whether a record carries exactly the exchange (q, r). -/
def samePair (q r : String) (rec : InteractionRecord) : Prop :=
  rec.query = q ∧ rec.response = r

instance (q r : String) (rec : InteractionRecord) : Decidable (samePair q r rec) := by
  unfold samePair
  infer_instance

/-- Importance upgrade applied to the record matching the stored exchange
(spec §4.6): the stored flag is OR-ed with the requested flag; any other
record is left unchanged. -/
def upgradeImportance (q r : String) (imp : Bool) (rec : InteractionRecord) :
    InteractionRecord :=
  if samePair q r rec then { rec with important := rec.important || imp }
  else rec

/-- Modelled from the spec: the store operation of `chat_memory.py` is not
in the sources; per spec §4.6, a duplicate (query, response) pair upgrades
the existing record's importance flag, otherwise a fresh record is
appended with the current timestamp. -/
def storeInteraction (db : List InteractionRecord) (q r : String)
    (imp : Bool) (now : Nat) : List InteractionRecord :=
  if db.any (fun rec => decide (samePair q r rec)) then
    db.map (upgradeImportance q r imp)
  else
    db ++ [⟨q, r, now, imp⟩]

/-- Upgrading importance never changes the query of a record. -/
theorem upgradeImportance_query (q r : String) (imp : Bool)
    (rec : InteractionRecord) :
    (upgradeImportance q r imp rec).query = rec.query := by
  unfold upgradeImportance
  split <;> rfl

/-- Upgrading importance never changes the response of a record. -/
theorem upgradeImportance_response (q r : String) (imp : Bool)
    (rec : InteractionRecord) :
    (upgradeImportance q r imp rec).response = rec.response := by
  unfold upgradeImportance
  split <;> rfl

/-- The store invariant (spec §3): no two records have identical
(query, response) pairs. -/
def NoDupPairs (db : List InteractionRecord) : Prop :=
  db.Pairwise (fun a b => ¬(a.query = b.query ∧ a.response = b.response))

/-- Modelled from the spec: `delete_non_important_memories` of
`db_utils.py` is not in the sources; per spec §4.6 and the DB-Utils
document, the retention sweep removes the records that are older than
`threshold` and not flagged important. -/
def retentionSweep (db : List InteractionRecord) (now threshold : Nat) :
    List InteractionRecord :=
  db.filter (fun rec => rec.important || decide (now - rec.timestamp ≤ threshold))

/-! ## The adaptive chunker

Modelled from the spec: `document_loader.py` is not among the sources.
Spec §4.3 fixes the shape: a deterministic characters-per-token estimate,
a target chunk size and overlap scaling with the document's token count
within configured bounds, a boundary rule preferring sentence-ending
punctuation within a tolerance window, then whitespace, then a hard cut,
and the two edge cases (blank input gives no chunks; a document shorter
than the minimum chunk size gives a single chunk with zero overlap).  The
concrete constants below instantiate the configured bounds. -/

/-- Configured characters-per-token approximation (spec §4.3). -/
def CHARS_PER_TOKEN : Nat := 4

/-- Configured minimum chunk size in tokens (spec §4.3, §6). -/
def MIN_CHUNK_TOKENS : Nat := 128

/-- Configured maximum chunk size in tokens (spec §4.3, §6). -/
def MAX_CHUNK_TOKENS : Nat := 1024

/-- Configured overlap ratio in percent (spec §8 scenario: 15%). -/
def OVERLAP_PERCENT : Nat := 15

/-- Configured tolerance window, in characters, for the boundary search
(spec §4.3). -/
def TOLERANCE_CHARS : Nat := 40

/-- Deterministic token-count approximation (spec §4.3): characters
divided by the fixed characters-per-token ratio, rounding up. -/
def estTokens (text : String) : Nat :=
  (text.length + CHARS_PER_TOKEN - 1) / CHARS_PER_TOKEN

/-- Normalization applied before fingerprinting a chunk (spec §3). -/
def normalizeText (s : String) : String := jsTrim s

/-- Chunk-level content fingerprint (spec §4.4): a deterministic hash over
the normalized chunk text, idealized here as the normalized text itself
(a collision-free hash). -/
def chunkFingerprint (s : String) : String := normalizeText s

/-- A text chunk (spec §3): owning file name, sequence index, raw text,
estimated token count and content fingerprint. -/
structure TextChunk where
  fileName : String
  seqIndex : Nat
  text : String
  tokenEstimate : Nat
  fingerprint : String
deriving DecidableEq, Repr

/-- Target chunk size in tokens for a document of `docTokens` tokens
(spec §4.3): scales with the document, clamped to the configured bounds. -/
def targetTokensFor (docTokens : Nat) : Nat :=
  min MAX_CHUNK_TOKENS (max MIN_CHUNK_TOKENS (docTokens / 4))

/-- Overlap in tokens for a given target chunk size (spec §4.3). -/
def overlapTokensFor (target : Nat) : Nat :=
  target * OVERLAP_PERCENT / 100

/-- Sentence-ending punctuation recognised by the boundary rule. -/
def isSentenceEnd (c : Char) : Bool :=
  c = '.' || c = '!' || c = '?'

/-- Length of the cut suggested by the last character satisfying `p`
within `pre`, provided it lies within the tolerance window of the end. -/
def lastMatchCut (p : Char → Bool) (pre : List Char) : Option Nat :=
  match pre.reverse.findIdx? p with
  | some j => if j < TOLERANCE_CHARS then some (pre.length - j) else none
  | none => none

/-- Boundary rule (spec §4.3): prefer the sentence terminator nearest the
target offset within the tolerance window, fall back to the nearest
whitespace, and as a last resort cut hard at the target offset. -/
def cutPoint (pre : List Char) : Nat :=
  match lastMatchCut isSentenceEnd pre with
  | some k => k
  | none =>
      match lastMatchCut (fun c => c.isWhitespace) pre with
      | some k => k
      | none => pre.length

/-- Core splitting loop: emit a piece ending at the boundary chosen by
`cutPoint`, then restart `overlapChars` before that boundary so that
consecutive pieces share a bounded overlap (spec §3, §4.3). -/
def splitChunks (s : List Char) (targetChars overlapChars : Nat) :
    List (List Char) :=
  if h : s.length ≤ targetChars then [s]
  else
    let cut0 := cutPoint (s.take targetChars)
    let cut := if cut0 = 0 then targetChars else cut0
    let step := max 1 (cut - overlapChars)
    s.take cut :: splitChunks (s.drop step) targetChars overlapChars
termination_by s.length
decreasing_by
  simp only [List.length_drop]
  omega

/-- Modelled from the spec: the adaptive chunker of `document_loader.py`
is not in the sources.  `chunkDocument` implements spec §4.3: blank input
yields no chunks; a document not exceeding the minimum chunk size yields
one chunk carrying the whole text (hence zero overlap); otherwise the text
is split with the adaptive target size and overlap, and each piece gets
the shared metadata, its sequence index and its content fingerprint. -/
def chunkDocument (fileName text : String) : List TextChunk :=
  if jsTrim text = "" then []
  else
    let docTokens := estTokens text
    if docTokens ≤ MIN_CHUNK_TOKENS then
      [⟨fileName, 0, text, docTokens, chunkFingerprint text⟩]
    else
      let target := targetTokensFor docTokens
      let ov := overlapTokensFor target
      (splitChunks text.toList (target * CHARS_PER_TOKEN)
          (ov * CHARS_PER_TOKEN)).mapIdx
        fun i piece =>
          ⟨fileName, i, String.mk piece, estTokens (String.mk piece),
            chunkFingerprint (String.mk piece)⟩

/-! ## Ingestion coordinator and duplicate detection

Modelled from the spec: `file_watcher.py` is not among the sources.  Spec
§4.1/§4.4/§4.5 and the File-Watcher document fix the behaviour: a file is
stable only when size and modification time are unchanged between two
successive observations, an unstable file stays in `Validating` untouched,
a stable file whose file-level fingerprint is already known is reported as
a duplicate (and moved to the archive without re-indexing), and a new file
is chunked, chunk-level deduplicated, indexed and archived. -/

/-- One filesystem observation of a file: size and modification time
(spec §4.1). -/
structure Observation where
  size : Nat
  mtime : Nat
deriving DecidableEq, Repr

/-- Stability check (spec §4.1): size and modification timestamp unchanged
across two successive observations. -/
def isStable (prev curr : Observation) : Bool :=
  prev.size == curr.size && prev.mtime == curr.mtime

/-- File-level content fingerprint (spec §4.4): a deterministic hash over
the full raw byte content, idealized here as the content itself (a
collision-free hash).  It does not depend on the file name. -/
def fileFingerprint (content : String) : String := content

/-- Fingerprint-store lookup (spec §4.4):
`check(fingerprint) -> New | DuplicateOf(existingName)`, with `none` for
`New` and `some name` for `DuplicateOf`. -/
def lookupFp (store : List (String × String)) (fp : String) : Option String :=
  (store.find? (fun p => p.1 == fp)).map Prod.snd

/-- Shared process-wide ingestion state (spec §3, §6): the chunks handed to
the external vector index, the file-level and chunk-level fingerprint
stores (fingerprint → first-seen file name), and the archive. -/
structure IngestState where
  index : List TextChunk
  fileFprints : List (String × String)
  chunkFprints : List (String × String)
  archive : List String
deriving DecidableEq, Repr

/-- Outcome of handling one file (spec §7): indexed, reported as a
duplicate of an earlier file, or still awaiting stability. -/
inductive IngestOutcome where
  | Indexed
  | DuplicateDetected (original : String)
  | StillValidating
deriving DecidableEq, Repr

/-- Chunk-level duplicate filtering (spec §4.4): a chunk whose fingerprint
is already known — from an earlier file or earlier in the same batch — is
excluded from the index batch. -/
def dedupChunks (store : List (String × String)) (name : String) :
    List TextChunk → List TextChunk
  | [] => []
  | c :: cs =>
      if (lookupFp store c.fingerprint).isSome then dedupChunks store name cs
      else c :: dedupChunks (store ++ [(c.fingerprint, name)]) name cs

/-- Modelled from the spec: the processing path of `file_watcher.py` for a
stable file is not in the sources.  Per spec §4.4/§4.5 and the
File-Watcher workflow: an already-indexed fingerprint is reported as
`DuplicateDetected` and the file is only moved to the archive; a new
fingerprint is chunked, chunk-deduplicated, handed to the index, recorded
in both fingerprint stores and archived. -/
def ingestStable (name content : String) (st : IngestState) :
    IngestOutcome × IngestState :=
  let fp := fileFingerprint content
  match lookupFp st.fileFprints fp with
  | some orig =>
      (.DuplicateDetected orig, { st with archive := st.archive ++ [name] })
  | none =>
      let fresh := dedupChunks st.chunkFprints name (chunkDocument name content)
      (.Indexed,
        { index := st.index ++ fresh,
          fileFprints := st.fileFprints ++ [(fp, name)],
          chunkFprints :=
            st.chunkFprints ++ fresh.map (fun c => (c.fingerprint, name)),
          archive := st.archive ++ [name] })

/-- Coordinator file states relevant to one poll cycle (spec §4.5). -/
inductive FileState where
  | Validating
  | Archived
deriving DecidableEq, Repr

/-- Modelled from the spec: the poll cycle of `file_watcher.py` is not in
the sources.  Per spec §4.1/§4.5: a file whose two successive observations
differ stays in `Validating` with every store untouched and is re-checked
next poll; a stable file runs the full pipeline and ends archived. -/
def pollCycle (name : String) (prev curr : Observation) (content : String)
    (st : IngestState) : FileState × IngestOutcome × IngestState :=
  if isStable prev curr then
    let r := ingestStable name content st
    (.Archived, r.1, r.2)
  else
    (.Validating, .StillValidating, st)

/-! ## Theorems -/

/-- C9: for every user input whose whitespace-trimmed value is empty,
`sendMessage` returns without issuing any `/ask` request and leaves the
chat box contents and the input field unchanged. -/
theorem sendMessage_blank_input (ui : ChatUI) (resp : AskResponse)
    (h : jsTrim ui.userInput = "") :
    sendMessage ui resp = (ui, []) := by
  unfold sendMessage
  simp [h]

/-- Witness for C9: on a whitespace-only input the chat state is untouched
and no request is issued. -/
theorem sendMessage_blank_input_witness :
    jsTrim (ChatUI.mk "box" "   ").userInput = "" ∧
      sendMessage ⟨"box", "   "⟩ .networkFailure = (⟨"box", "   "⟩, []) :=
  ⟨by decide, sendMessage_blank_input ⟨"box", "   "⟩ .networkFailure (by decide)⟩

/-- C10: `storeMemory` issues a `/store-memory` request exactly when both a
last user message and a last AI message exist; when either is missing it
returns with no network call, and it never modifies the user-interface
state. -/
theorem storeMemory_guard (ui : ChatUI) (lastUser lastAI : Option String)
    (b : Bool) :
    (lastUser = none ∨ lastAI = none →
      storeMemory ui lastUser lastAI b = (ui, [])) ∧
    ((storeMemory ui lastUser lastAI b).2 ≠ [] ↔
      lastUser ≠ none ∧ lastAI ≠ none) ∧
    (storeMemory ui lastUser lastAI b).1 = ui := by
  cases lastUser <;> cases lastAI <;> simp [storeMemory]

/-- Witness for C10: with a user message but no AI message, no request is
issued and the user interface is unchanged. -/
theorem storeMemory_guard_witness :
    storeMemory ⟨"box", "inp"⟩ (some "You: hi") none true = (⟨"box", "inp"⟩, []) :=
  (storeMemory_guard ⟨"box", "inp"⟩ (some "You: hi") none true).1 (Or.inr rfl)

/-- C3: for two records with identical importance flags, at every
evaluation time the more recent record scores at least the older one,
because the score multiplies the shared importance weight by a decay that
is monotonically decreasing in elapsed time. -/
theorem score_recency_mono (r1 r2 : InteractionRecord) (now : Nat)
    (himp : r1.important = r2.important) (ht : r1.timestamp ≤ r2.timestamp) :
    score now r1 ≤ score now r2 := by
  unfold score
  have hw : importanceWeight r1 = importanceWeight r2 := by
    unfold importanceWeight
    rw [himp]
  rw [hw]
  exact mul_le_mul_of_nonneg_left
    (decay_antitone (Nat.sub_le_sub_left ht now))
    (le_of_lt (importanceWeight_pos r2))

/-- Witness for C3: two ordinary records, the newer one scores at least the
older one at time 10. -/
theorem score_recency_mono_witness :
    (InteractionRecord.mk "q" "a" 1 false).important =
        (InteractionRecord.mk "q" "a" 5 false).important ∧
      (InteractionRecord.mk "q" "a" 1 false).timestamp ≤
        (InteractionRecord.mk "q" "a" 5 false).timestamp ∧
      score 10 ⟨"q", "a", 1, false⟩ ≤ score 10 ⟨"q", "a", 5, false⟩ :=
  ⟨rfl, by decide, score_recency_mono ⟨"q", "a", 1, false⟩ ⟨"q", "a", 5, false⟩ 10 rfl (by decide)⟩

/-- C4: at the same evaluation time, a record flagged important scores at
least a record not flagged important of the same age. -/
theorem score_importance_override (r1 r2 : InteractionRecord) (now : Nat)
    (h1 : r1.important = true) (h2 : r2.important = false)
    (hage : now - r1.timestamp = now - r2.timestamp) :
    score now r2 ≤ score now r1 := by
  unfold score importanceWeight
  rw [h1, h2, hage]
  simp only [Bool.false_eq_true, if_true, if_false]
  have hd := decay_pos (now - r2.timestamp)
  linarith

/-- Witness for C4: an important and an ordinary record of the same age 7
at time 9. -/
theorem score_importance_override_witness :
    (InteractionRecord.mk "q" "a" 2 true).important = true ∧
      (InteractionRecord.mk "p" "b" 2 false).important = false ∧
      9 - (InteractionRecord.mk "q" "a" 2 true).timestamp =
        9 - (InteractionRecord.mk "p" "b" 2 false).timestamp ∧
      score 9 ⟨"p", "b", 2, false⟩ ≤ score 9 ⟨"q", "a", 2, true⟩ :=
  ⟨rfl, rfl, rfl,
    score_importance_override ⟨"q", "a", 2, true⟩ ⟨"p", "b", 2, false⟩ 9 rfl rfl rfl⟩

/-- C6: the retention sweep keeps exactly the records that are important
or not older than the threshold; a stored record is absent after the sweep
if and only if it was not important and its age exceeded the threshold. -/
theorem retentionSweep_exact (db : List InteractionRecord) (now threshold : Nat)
    (rec : InteractionRecord) :
    (rec ∈ retentionSweep db now threshold ↔
      rec ∈ db ∧ (rec.important = true ∨ now - rec.timestamp ≤ threshold)) ∧
    (rec ∈ db →
      (rec ∉ retentionSweep db now threshold ↔
        rec.important = false ∧ threshold < now - rec.timestamp)) := by
  have hmem : rec ∈ retentionSweep db now threshold ↔
      rec ∈ db ∧ (rec.important = true ∨ now - rec.timestamp ≤ threshold) := by
    unfold retentionSweep
    simp [List.mem_filter]
  refine ⟨hmem, fun hdb => ?_⟩
  rw [hmem]
  cases hi : rec.important <;> simp [hdb, hi] <;> omega

/-- Witness for C6: an old, not-important record is absent after a sweep
over the singleton store holding it. -/
theorem retentionSweep_exact_witness :
    (InteractionRecord.mk "q" "a" 0 false) ∉
      retentionSweep [⟨"q", "a", 0, false⟩] 100 10 :=
  ((retentionSweep_exact [⟨"q", "a", 0, false⟩] 100 10 ⟨"q", "a", 0, false⟩).2
      (List.mem_singleton.mpr rfl)).mpr ⟨rfl, by decide⟩

/-- C7: blank input yields zero chunks, and a non-blank document shorter
than the minimum chunk size yields exactly one chunk carrying the whole
text (so consecutive-chunk overlap is zero). -/
theorem chunkDocument_edge_cases (fileName text : String) :
    (jsTrim text = "" → chunkDocument fileName text = []) ∧
    (jsTrim text ≠ "" → estTokens text < MIN_CHUNK_TOKENS →
      chunkDocument fileName text =
        [⟨fileName, 0, text, estTokens text, chunkFingerprint text⟩]) := by
  constructor
  · intro h
    unfold chunkDocument
    simp [h]
  · intro h1 h2
    unfold chunkDocument
    simp [h1, Nat.le_of_lt h2]

/-- Witness for C7: a whitespace-only document yields no chunks, and a
two-character document yields exactly one whole-text chunk. -/
theorem chunkDocument_edge_cases_witness :
    chunkDocument "f.txt" " \t " = [] ∧
      chunkDocument "f.txt" "hi" = [⟨"f.txt", 0, "hi", 1, "hi"⟩] :=
  ⟨(chunkDocument_edge_cases "f.txt" " \t ").1 (by decide),
    (chunkDocument_edge_cases "f.txt" "hi").2 (by decide) (by decide)⟩

/-- C8: a file whose size or modification timestamp changed between the two
successive observations of a poll cycle stays in `Validating` with the
ingestion state (index, fingerprint stores, archive) untouched, so it is
neither extracted, indexed nor archived in that cycle and is re-checked on
the next poll. -/
theorem pollCycle_unstable (name : String) (prev curr : Observation)
    (content : String) (st : IngestState)
    (h : prev.size ≠ curr.size ∨ prev.mtime ≠ curr.mtime) :
    pollCycle name prev curr content st = (.Validating, .StillValidating, st) := by
  have hst : isStable prev curr = false := by
    rcases Bool.eq_false_or_eq_true (isStable prev curr) with h' | h'
    · exfalso
      unfold isStable at h'
      simp only [Bool.and_eq_true, beq_iff_eq] at h'
      tauto
    · exact h'
  unfold pollCycle
  simp [hst]

/-- A fingerprint store that misses `fp` finds it, with the recorded name,
after `(fp, name)` is appended. -/
theorem lookupFp_append_self (store : List (String × String)) (fp name : String)
    (h : lookupFp store fp = none) :
    lookupFp (store ++ [(fp, name)]) fp = some name := by
  induction store with
  | nil => simp [lookupFp, List.find?]
  | cons p ps ih =>
      unfold lookupFp at *
      cases hp : (p.1 == fp) with
      | true => simp [List.find?_cons, hp] at h
      | false =>
          simp only [List.cons_append, List.find?_cons, hp, cond_false] at *
          exact ih h

/-- Unfolding of `ingestStable` on a content whose file-level fingerprint
is new: the file is chunked, deduplicated, indexed, recorded and
archived. -/
theorem ingestStable_new (name content : String) (st : IngestState)
    (h : lookupFp st.fileFprints (fileFingerprint content) = none) :
    ingestStable name content st =
      (.Indexed,
        { index := st.index ++
            dedupChunks st.chunkFprints name (chunkDocument name content),
          fileFprints := st.fileFprints ++ [(fileFingerprint content, name)],
          chunkFprints := st.chunkFprints ++
            (dedupChunks st.chunkFprints name
                (chunkDocument name content)).map
              (fun c => (c.fingerprint, name)),
          archive := st.archive ++ [name] }) := by
  simp only [ingestStable, h]

/-- Unfolding of `ingestStable` on a content whose file-level fingerprint
was already recorded: `DuplicateDetected` and only the archive grows. -/
theorem ingestStable_dup (name content : String) (st : IngestState)
    (orig : String)
    (h : lookupFp st.fileFprints (fileFingerprint content) = some orig) :
    ingestStable name content st =
      (.DuplicateDetected orig, { st with archive := st.archive ++ [name] }) := by
  simp only [ingestStable, h]

/-- C1: ingesting the same byte content twice — under the same or a
different name — indexes it exactly once: the first attempt (on a content
whose fingerprint is new) is indexed, the second is reported as
`DuplicateDetected` naming the first file, and the index and both
fingerprint stores are exactly those left by the first attempt.  The
fingerprint depends only on the content, never on the path. -/
theorem ingest_idempotent (n1 n2 content : String) (st : IngestState)
    (h : lookupFp st.fileFprints (fileFingerprint content) = none) :
    (ingestStable n1 content st).1 = .Indexed ∧
    (ingestStable n2 content (ingestStable n1 content st).2).1 =
      IngestOutcome.DuplicateDetected n1 ∧
    (ingestStable n2 content (ingestStable n1 content st).2).2.index =
      (ingestStable n1 content st).2.index ∧
    (ingestStable n2 content (ingestStable n1 content st).2).2.fileFprints =
      (ingestStable n1 content st).2.fileFprints ∧
    (ingestStable n2 content (ingestStable n1 content st).2).2.chunkFprints =
      (ingestStable n1 content st).2.chunkFprints := by
  have h1 := ingestStable_new n1 content st h
  have hlk : lookupFp (ingestStable n1 content st).2.fileFprints
      (fileFingerprint content) = some n1 := by
    rw [h1]
    exact lookupFp_append_self _ _ _ h
  have h2 := ingestStable_dup n2 content (ingestStable n1 content st).2 n1 hlk
  exact ⟨by rw [h1], by rw [h2], by rw [h2], by rw [h2], by rw [h2]⟩

/-- Witness for C1: the same content dropped as `a.txt` and then as
`b.txt` into an empty state is indexed once and then reported as a
duplicate of `a.txt`. -/
theorem ingest_idempotent_witness :
    lookupFp (IngestState.mk [] [] [] []).fileFprints
        (fileFingerprint "Hello world.") = none ∧
      (ingestStable "a.txt" "Hello world." ⟨[], [], [], []⟩).1 = .Indexed ∧
      (ingestStable "b.txt" "Hello world."
          (ingestStable "a.txt" "Hello world." ⟨[], [], [], []⟩).2).1 =
        IngestOutcome.DuplicateDetected "a.txt" :=
  ⟨rfl,
    (ingest_idempotent "a.txt" "b.txt" "Hello world." ⟨[], [], [], []⟩ rfl).1,
    (ingest_idempotent "a.txt" "b.txt" "Hello world." ⟨[], [], [], []⟩ rfl).2.1⟩

/-- C2: the store never holds two records with identical (query, response)
pairs — the invariant is preserved by every store operation; when an
identical pair already exists no record is inserted (the length is
unchanged) and the matching record's importance flag is OR-ed with the
requested flag while every other record is kept as it is; when no
identical pair exists, a new record with the current timestamp is
appended. -/
theorem storeInteraction_correct (db : List InteractionRecord) (q r : String)
    (imp : Bool) (now : Nat) (h : NoDupPairs db) :
    NoDupPairs (storeInteraction db q r imp now) ∧
    ((∃ rec ∈ db, samePair q r rec) →
      (storeInteraction db q r imp now).length = db.length ∧
      (∀ rec ∈ db, samePair q r rec →
        { rec with important := rec.important || imp } ∈
          storeInteraction db q r imp now) ∧
      (∀ rec ∈ db, ¬ samePair q r rec →
        rec ∈ storeInteraction db q r imp now)) ∧
    ((¬ ∃ rec ∈ db, samePair q r rec) →
      storeInteraction db q r imp now = db ++ [⟨q, r, now, imp⟩]) := by
  by_cases hex : ∃ rec ∈ db, samePair q r rec
  · have hany : db.any (fun rec => decide (samePair q r rec)) = true := by
      rw [List.any_eq_true]
      obtain ⟨rec, hrec, hp⟩ := hex
      exact ⟨rec, hrec, decide_eq_true hp⟩
    unfold storeInteraction
    rw [if_pos hany]
    refine ⟨?_, fun _ => ⟨List.length_map _ _, ?_, ?_⟩,
      fun hne => absurd hex hne⟩
    · unfold NoDupPairs at *
      rw [List.pairwise_map]
      refine h.imp ?_
      intro a b hab
      rw [upgradeImportance_query, upgradeImportance_query,
        upgradeImportance_response, upgradeImportance_response]
      exact hab
    · intro rec hrec hp
      have hu : upgradeImportance q r imp rec =
          { rec with important := rec.important || imp } := by
        unfold upgradeImportance
        rw [if_pos hp]
      exact hu ▸ List.mem_map_of_mem _ hrec
    · intro rec hrec hp
      have hu : upgradeImportance q r imp rec = rec := by
        unfold upgradeImportance
        rw [if_neg hp]
      exact hu ▸ List.mem_map_of_mem _ hrec
  · have hany : ¬ db.any (fun rec => decide (samePair q r rec)) = true := by
      rw [List.any_eq_true]
      rintro ⟨rec, hrec, hp⟩
      exact hex ⟨rec, hrec, of_decide_eq_true hp⟩
    unfold storeInteraction
    rw [if_neg hany]
    refine ⟨?_, fun hex' => absurd hex' hex, fun _ => rfl⟩
    unfold NoDupPairs
    rw [List.pairwise_append]
    refine ⟨h, List.pairwise_singleton _ _, ?_⟩
    intro a ha b hb
    rw [List.mem_singleton] at hb
    subst hb
    rintro ⟨hq, hr⟩
    exact hex ⟨a, ha, hq, hr⟩

/-- Witness for C2: storing the same exchange twice, the second time with
the important flag, leaves a single record now flagged important. -/
theorem storeInteraction_correct_witness :
    NoDupPairs (storeInteraction [] "what is RAG?" "..." false 1) ∧
      storeInteraction (storeInteraction [] "what is RAG?" "..." false 1)
          "what is RAG?" "..." true 2 =
        [⟨"what is RAG?", "...", 1, true⟩] := by
  have h0 : NoDupPairs ([] : List InteractionRecord) := List.Pairwise.nil
  have h1 := (storeInteraction_correct [] "what is RAG?" "..." false 1 h0).2.2
    (by rintro ⟨rec, hrec, _⟩; exact (List.not_mem_nil rec) hrec)
  have h2 : NoDupPairs (storeInteraction [] "what is RAG?" "..." false 1) :=
    (storeInteraction_correct [] "what is RAG?" "..." false 1 h0).1
  refine ⟨h2, ?_⟩
  rw [h1]
  decide

/-- C5: for every query, candidate set and evaluation time, `rank` returns
at most `topK` (three) records, and exactly `min topK |allRecords|` of
them — all candidates when fewer than three exist; the result is sorted by
the ranking order (higher score first, ties by most-recent timestamp
first) and the candidate set splits, up to permutation, into the result
and a remainder every element of which ranks no higher than every
returned record — the result is the top three of the candidate set. -/
theorem rank_topK_correct (query : String)
    (allRecords : List InteractionRecord) (now : Nat) :
    (rank query allRecords now).length ≤ topK ∧
    (rank query allRecords now).length = min topK allRecords.length ∧
    List.Sorted (rankOrder now) (rank query allRecords now) ∧
    ∃ rest : List InteractionRecord,
      allRecords.Perm (rank query allRecords now ++ rest) ∧
      ∀ a ∈ rank query allRecords now, ∀ b ∈ rest, rankOrder now a b := by
  unfold rank
  refine ⟨List.length_take_le _ _, ?_, ?_, ?_⟩
  · rw [List.length_take, (List.perm_insertionSort (rankOrder now) allRecords).length_eq]
  · exact List.Pairwise.sublist (List.take_sublist _ _)
      (List.sorted_insertionSort _ _)
  · refine ⟨(List.insertionSort (rankOrder now) allRecords).drop topK, ?_, ?_⟩
    · rw [List.take_append_drop]
      exact (List.perm_insertionSort _ _).symm
    · have hs : List.Pairwise (rankOrder now)
          ((List.insertionSort (rankOrder now) allRecords).take topK ++
            (List.insertionSort (rankOrder now) allRecords).drop topK) := by
        rw [List.take_append_drop]
        exact List.sorted_insertionSort _ _
      exact (List.pairwise_append.mp hs).2.2

/-- Witness for C8: a growing file (size 5 then 9) is left in `Validating`
with the empty ingestion state unchanged. -/
theorem pollCycle_unstable_witness :
    pollCycle "doc.pdf" ⟨5, 1⟩ ⟨9, 1⟩ "text" ⟨[], [], [], []⟩ =
      (.Validating, .StillValidating, ⟨[], [], [], []⟩) :=
  pollCycle_unstable "doc.pdf" ⟨5, 1⟩ ⟨9, 1⟩ "text" ⟨[], [], [], []⟩
    (Or.inl (by decide))

end ChatRagi
